import Mathlib

/-!
# Shallow embedding of the Shopify order-update webhook handler

Source: `src/pages/api/shopify/webhooks/order/updateSalesDonated.ts`
(and the earlier variant `src/unnamed/part_000`, whose verifier functions
`calculateHMAC` / `verifyWebhook` are byte-for-byte identical).

Modelling conventions:
* Byte sequences (Node `Buffer`) are `List Nat` (each entry a byte value).
* `Buffer.from(string)` on the ASCII/base64 strings involved is the list of
  character code points (`strBytes`).
* JavaScript numbers that are integral-or-NaN are `Option Int`
  (`none` = `NaN`); `parseInt` always yields an integer or `NaN`.
* A thrown JavaScript exception is `Except.error msg`.
* Node's `crypto.createHmac('sha256', secret).update(body).digest('base64')`
  is an external library primitive; it is modelled as an explicit function
  parameter `hmacBase64 : String → Bytes → String` (secret, body ↦ base64
  digest text), so every theorem holds for any implementation of it.
* `JSON.parse` is likewise an external builtin, passed as a parameter
  `jsonParse : Bytes → Except String JsonV` to the handler.
* The remote GraphQL service is opaque: the two sequential `fetch` calls of
  one request are modelled by the two `FetchResponse`s the service would
  return (`RemoteModel`), and the handler's outcome records which calls
  were issued (`RemoteCall`).
-/

/-- A byte sequence (Node `Buffer`). -/
abbrev Bytes := List Nat

/-- `Buffer.from(s)` for the ASCII (base64) strings used here: the UTF-8
bytes, which for these strings are the character code points. -/
def strBytes (s : String) : Bytes :=
  s.data.map Char.toNat

/-- The error message of the `RangeError` thrown by Node's
`crypto.timingSafeEqual` when the two buffers have different lengths. -/
def rangeErrorMsg : String :=
  "RangeError: Input buffers must have the same byte length"

/-- The byte-wise constant-time equality underlying `crypto.timingSafeEqual`:
XOR corresponding bytes, OR everything together, compare with zero.
All byte positions are always processed; there is no early exit. -/
def ctEq (a b : Bytes) : Bool :=
  ((List.zipWith Nat.xor a b).foldl Nat.lor 0) == 0

/-- Node's `crypto.timingSafeEqual(a, b)`: throws a `RangeError` when the
buffer lengths differ, otherwise compares all bytes in constant time. -/
def timingSafeEqual (a b : Bytes) : Except String Bool :=
  if a.length = b.length then Except.ok (ctEq a b) else Except.error rangeErrorMsg

/-- Source lines 130–137 (`calculateHMAC`):
`const secret = process.env.SHOPIFY_WEBHOOK_SECRET; if (!secret) return '';
return crypto.createHmac('sha256', secret).update(body).digest('base64');`
`secret` is `string | undefined`; `!secret` is true for `undefined` and `""`. -/
def calculateHMAC (hmacBase64 : String → Bytes → String)
    (secret : Option String) (body : Bytes) : String :=
  match secret with
  | none => ""
  | some s => if s = "" then "" else hmacBase64 s body

/-- Source lines 139–143 (`verifyWebhook`):
`const calculatedHmac = calculateHMAC(body); if (!calculatedHmac) return false;
return crypto.timingSafeEqual(Buffer.from(calculatedHmac), Buffer.from(hmac));`
A thrown `RangeError` from `timingSafeEqual` propagates as `Except.error`. -/
def verifyWebhook (hmacBase64 : String → Bytes → String)
    (secret : Option String) (body : Bytes) (hmac : String) : Except String Bool :=
  let calculatedHmac := calculateHMAC hmacBase64 secret body
  if calculatedHmac = "" then Except.ok false
  else timingSafeEqual (strBytes calculatedHmac) (strBytes hmac)

/-- `timingSafeEqual` instrumented with a cost: the number of byte
comparisons it performs (all of them when the lengths agree, none when it
throws before comparing). -/
def timingSafeEqualInstr (a b : Bytes) : Except String Bool × Nat :=
  if a.length = b.length then (Except.ok (ctEq a b), a.length)
  else (Except.error rangeErrorMsg, 0)

/-- `verifyWebhook` instrumented with the number of byte comparisons the
constant-time primitive executes on secret-dependent data. -/
def verifyWebhookInstr (hmacBase64 : String → Bytes → String)
    (secret : Option String) (body : Bytes) (hmac : String) :
    Except String Bool × Nat :=
  let calculatedHmac := calculateHMAC hmacBase64 secret body
  if calculatedHmac = "" then (Except.ok false, 0)
  else timingSafeEqualInstr (strBytes calculatedHmac) (strBytes hmac)

/-- JavaScript values as produced by `JSON.parse` (plus `undefined`, the
result of reading an absent property). Numbers are restricted to the
integral values that actually occur here. -/
inductive JsonV where
  | null
  | undefinedV
  | str (s : String)
  | num (n : Int)
  | arr (elems : List JsonV)
  | obj (props : List (String × JsonV))

/-- JavaScript property access `v.k`: throws a `TypeError` on `null` or
`undefined`, yields `undefined` for an absent key or a non-object base. -/
def JsonV.getProp (v : JsonV) (k : String) : Except String JsonV :=
  match v with
  | .null => Except.error "TypeError: Cannot read properties of null"
  | .undefinedV => Except.error "TypeError: Cannot read properties of undefined"
  | .obj props => Except.ok ((props.lookup k).getD .undefinedV)
  | _ => Except.ok .undefinedV

/-- JavaScript index access `v[i]`: throws a `TypeError` on `null` or
`undefined`, yields the element (or `undefined` out of range) on arrays,
a one-character string on strings, `undefined` otherwise. -/
def JsonV.index (v : JsonV) (i : Nat) : Except String JsonV :=
  match v with
  | .null => Except.error "TypeError: Cannot read properties of null"
  | .undefinedV => Except.error "TypeError: Cannot read properties of undefined"
  | .arr elems => Except.ok ((elems.get? i).getD .undefinedV)
  | .str s => Except.ok ((s.data.get? i).map (fun c => JsonV.str (String.mk [c]))
      |>.getD .undefinedV)
  | _ => Except.ok .undefinedV

/-- Value of a list of decimal digit characters. -/
def digitsToNat (ds : List Char) : Nat :=
  ds.foldl (fun acc c => acc * 10 + (c.toNat - Char.toNat '0')) 0

/-- JavaScript `parseInt(s)` (radix 10): skip leading whitespace, optional
sign, then the longest prefix of decimal digits; `NaN` (`none`) when no
digit follows. This stops at the first non-digit, so `parseInt("50.9")`
is `50` (fractional part truncated). The radix-prefix corner (`"0x.."`) is
not exercised by any input of this program. -/
def parseIntJS (s : String) : Option Int :=
  let cs := s.data.dropWhile (fun c => c == ' ' || c == '\t' || c == '\n' || c == '\r')
  let signed : Bool × List Char :=
    match cs with
    | '-' :: rest => (true, rest)
    | '+' :: rest => (false, rest)
    | _ => (false, cs)
  let ds := signed.2.takeWhile Char.isDigit
  if ds.isEmpty then none
  else some (if signed.1 then -(digitsToNat ds : Int) else (digitsToNat ds : Int))

mutual

/-- JavaScript `ToString` of a value: `null` prints as `"null"`, `undefined`
as `"undefined"`, a string as itself, a number as its decimal text, an
array via `Array.prototype.toString` (`jsArrayJoin`), and a plain object as
`"[object Object]"`. -/
def jsToString : JsonV → String
  | .null => "null"
  | .undefinedV => "undefined"
  | .str s => s
  | .num n => toString n
  | .arr elems => jsArrayJoin elems
  | .obj _ => "[object Object]"

/-- `Array.prototype.toString` (= `join(",")`): elements are `ToString`-ed
and joined with commas, except that `null` and `undefined` elements print
as the empty string; nested arrays are joined recursively, so
`ToString([["50"]]) = "50"` and `ToString([[2,3],4]) = "2,3,4"`. -/
def jsArrayJoin : List JsonV → String
  | [] => ""
  | [JsonV.null] => ""
  | [JsonV.undefinedV] => ""
  | [v] => jsToString v
  | JsonV.null :: rest => "," ++ jsArrayJoin rest
  | JsonV.undefinedV :: rest => "," ++ jsArrayJoin rest
  | v :: rest => jsToString v ++ "," ++ jsArrayJoin rest

end

/-- JavaScript `parseInt` applied to an arbitrary value: the argument is
first coerced with `ToString`, then parsed. So a string parses as itself, a
number round-trips, an array parses as its comma-join
(`parseInt(["50"]) = 50`, `parseInt([]) = NaN`), and
`undefined`/`null`/plain objects coerce to `"undefined"`/`"null"`/
`"[object Object]"`, none of which has a leading digit, giving `NaN`. -/
def parseIntOfJson (v : JsonV) : Option Int :=
  parseIntJS (jsToString v)

/-- JavaScript `+` on integral-or-NaN numbers: `NaN` absorbs. -/
def jsAdd (a b : Option Int) : Option Int :=
  match a, b with
  | some x, some y => some (x + y)
  | _, _ => none

/-- `Math.floor` on integral-or-NaN numbers: the identity (`Math.floor(NaN)`
is `NaN`, and the floor of an integer is itself). -/
def jsFloor (a : Option Int) : Option Int := a

/-- JavaScript template stringification of an integral-or-NaN number:
`NaN` prints as `"NaN"`. -/
def numToString (a : Option Int) : String :=
  match a with
  | none => "NaN"
  | some n => toString n

/-- Source line 85 as a function of the already-parsed current value:
`Math.floor(currentTotalPrice + parseInt(orderTotalPrice))` where
`currentTotalPrice` is integral-or-NaN and `orderTotalPrice` is a string. -/
def computeNewValue (currentTotalPrice : Option Int) (orderTotalPrice : String) :
    Option Int :=
  jsFloor (jsAdd currentTotalPrice (parseIntJS orderTotalPrice))

/-- One `fetch` response as seen by `shopifyGraphQL`: the `ok`/`status`
transport fields and the parsed JSON body. -/
structure FetchResponse where
  ok : Bool
  status : Nat
  json : JsonV

/-- The two responses the remote GraphQL service returns to the two
sequential calls (read query, then update mutation) of one request. -/
structure RemoteModel where
  getResp : FetchResponse
  updateResp : FetchResponse

/-- The error message of lines 165–167. -/
def httpErrorMsg (status : Nat) : String :=
  "shopifyGraphQL: HTTP error! status: " ++ toString status

/-- Source lines 145–184 (`shopifyGraphQL`): throws on non-success HTTP
status (`!response.ok`), otherwise returns the parsed JSON body. The
application-level content of the body is not inspected here. -/
def shopifyGraphQL (resp : FetchResponse) : Except String JsonV :=
  if resp.ok then Except.ok resp.json else Except.error (httpErrorMsg resp.status)

/-- A remote call issued by the aggregator: the read query, or the update
mutation carrying the string written into the `sales_donated` field. -/
inductive RemoteCall where
  | getCall
  | updateCall (newValue : String)

/-- Source line 84's property chain
`getResponse.data.metaobject.fields[0].value`, each step with JavaScript
access semantics (a `TypeError` on a `null`/absent intermediate propagates). -/
def fieldValuePath (getResponse : JsonV) : Except String JsonV := do
  let d ← getResponse.getProp "data"
  let m ← d.getProp "metaobject"
  let fs ← m.getProp "fields"
  let f0 ← fs.index 0
  f0.getProp "value"

/-- Source lines 63–115 (`updateSalesDonatedMetaobject`): read the
metaobject, parse its first field's value, add the parsed order total,
write the result back. Returns the list of remote calls issued (in order)
together with normal completion or the propagated exception. -/
def updateSalesDonatedMetaobject (remote : RemoteModel) (orderTotalPrice : JsonV) :
    List RemoteCall × Except String Unit :=
  match shopifyGraphQL remote.getResp with
  | .error e => ([.getCall], .error e)
  | .ok getResponse =>
    match fieldValuePath getResponse with
    | .error e => ([.getCall], .error e)
    | .ok value =>
      let currentTotalPrice := parseIntOfJson value
      let priceToUpdate := jsFloor (jsAdd currentTotalPrice (parseIntOfJson orderTotalPrice))
      match shopifyGraphQL remote.updateResp with
      | .error e => ([.getCall, .updateCall (numToString priceToUpdate)], .error e)
      | .ok _ => ([.getCall, .updateCall (numToString priceToUpdate)], .ok ())

/-- A request as the handler sees it: the method, the three Shopify headers
(`none` when absent), and the raw body bytes. -/
structure Request where
  method : String
  hmacHeader : Option String
  topicHeader : Option String
  shopHeader : Option String
  rawBody : Bytes

/-- The process environment fields the verifier consumes. -/
structure Env where
  webhookSecret : Option String

/-- JavaScript falsiness of a `string | undefined` header value:
`undefined` and `""` are falsy. -/
def headerFalsy (h : Option String) : Bool :=
  match h with
  | none => true
  | some s => s == ""

/-- Source lines 15–61 (`handler`): method check, header presence check,
raw-body capture, signature verification, JSON parse, aggregator call.
Any exception reaching the `try`/`catch` is mapped to status 500. The
result is the HTTP status together with the remote calls issued. -/
def handler (hmacBase64 : String → Bytes → String)
    (jsonParse : Bytes → Except String JsonV)
    (env : Env) (remote : RemoteModel) (req : Request) : Nat × List RemoteCall :=
  if req.method ≠ "POST" then (405, [])
  else if headerFalsy req.hmacHeader || headerFalsy req.topicHeader
      || headerFalsy req.shopHeader then (400, [])
  else
    match verifyWebhook hmacBase64 env.webhookSecret req.rawBody
        (req.hmacHeader.getD "") with
    | .error _ => (500, [])
    | .ok false => (401, [])
    | .ok true =>
      match jsonParse req.rawBody with
      | .error _ => (500, [])
      | .ok webhookBody =>
        match webhookBody.getProp "current_total_price" with
        | .error _ => (500, [])
        | .ok price =>
          match updateSalesDonatedMetaobject remote price with
          | (calls, .ok _) => (200, calls)
          | (calls, .error _) => (500, calls)

/-- The application-level error list of the update response:
`updateResponse.data.metaobjectUpdate.userErrors`. -/
def userErrors (updateJson : JsonV) : Except String JsonV := do
  let d ← updateJson.getProp "data"
  let u ← d.getProp "metaobjectUpdate"
  u.getProp "userErrors"

/-- Whether the update response carries a non-empty application-level
error list. -/
def hasUserErrors (updateJson : JsonV) : Bool :=
  match userErrors updateJson with
  | .ok (.arr (_ :: _)) => true
  | _ => false

/-- A concrete stand-in for the external base64 HMAC-SHA256 primitive, used
by closed witnesses and counterexamples; like the real digest text it is 44
characters long and independent of nothing relevant to the statements that
use it (every universally quantified theorem holds for any such function). -/
def exHmacF : String → Bytes → String :=
  fun _ _ => "AAAAAAAAAAAAAAAAAAAAAAAAAAAAAAAAAAAAAAAAAAA="

/-- A concrete read-query response body whose metaobject's first field
stores `v`, shaped like the GraphQL response of the source's `GetMetaobjectByHandle`. -/
def exGetJson (v : String) : JsonV :=
  JsonV.obj [("data", JsonV.obj [("metaobject", JsonV.obj [
    ("handle", JsonV.str "sales-donated"),
    ("type", JsonV.str "sales_donated"),
    ("fields", JsonV.arr [JsonV.obj [
      ("key", JsonV.str "sales_donated"),
      ("value", JsonV.str v),
      ("type", JsonV.str "number_integer")]])])])]

/-- A concrete update-mutation response body with an empty `userErrors` list. -/
def exUpdateJsonClean : JsonV :=
  JsonV.obj [("data", JsonV.obj [("metaobjectUpdate", JsonV.obj [
    ("metaobject", JsonV.obj [("handle", JsonV.str "sales-donated")]),
    ("userErrors", JsonV.arr [])])])]

/-- A concrete update-mutation response body carrying one application-level
error in its `userErrors` list (HTTP status is still 200/ok). -/
def exUpdateJsonErr : JsonV :=
  JsonV.obj [("data", JsonV.obj [("metaobjectUpdate", JsonV.obj [
    ("metaobject", JsonV.null),
    ("userErrors", JsonV.arr [JsonV.obj [
      ("field", JsonV.null),
      ("message", JsonV.str "Metaobject field violation"),
      ("code", JsonV.str "INVALID")]])])])]

/-- A remote service whose read succeeds with stored value `v` and whose
update succeeds with no application-level errors. -/
def exRemoteOk (v : String) : RemoteModel :=
  ⟨⟨true, 200, exGetJson v⟩, ⟨true, 200, exUpdateJsonClean⟩⟩

/-- A remote service whose read succeeds with stored value `"1000"` and
whose update returns HTTP success but a non-empty `userErrors` list. -/
def exRemoteUserErr : RemoteModel :=
  ⟨⟨true, 200, exGetJson "1000"⟩, ⟨true, 200, exUpdateJsonErr⟩⟩

/-- A remote service whose read returns HTTP success but a `null`
metaobject (object absent). -/
def exRemoteNullMeta : RemoteModel :=
  ⟨⟨true, 200, JsonV.obj [("data", JsonV.obj [("metaobject", JsonV.null)])]⟩,
   ⟨true, 200, exUpdateJsonClean⟩⟩

/-- A concrete `JSON.parse` outcome: a body parsing to
`{"current_total_price": "25"}`. -/
def exJsonParse25 : Bytes → Except String JsonV :=
  fun _ => Except.ok (JsonV.obj [("current_total_price", JsonV.str "25")])

/-- A concrete `JSON.parse` outcome: a body parsing to `{}` (no
`current_total_price` key). -/
def exJsonParseEmpty : Bytes → Except String JsonV :=
  fun _ => Except.ok (JsonV.obj [])

theorem verifyWebhookInstr_fst (hmacBase64 : String → Bytes → String)
    (secret : Option String) (body : Bytes) (hmac : String) :
    (verifyWebhookInstr hmacBase64 secret body hmac).1 =
      verifyWebhook hmacBase64 secret body hmac := by
  unfold verifyWebhookInstr verifyWebhook timingSafeEqualInstr timingSafeEqual
  by_cases h : calculateHMAC hmacBase64 secret body = ""
  · simp [h]
  · by_cases hl : (strBytes (calculateHMAC hmacBase64 secret body)).length =
        (strBytes hmac).length <;> simp [h, hl]

theorem ctEq_self (a : Bytes) : ctEq a a = true := by
  have h : ∀ n : Nat, List.foldl Nat.lor n (List.zipWith Nat.xor a a) = n := by
    induction a with
    | nil => intro n; rfl
    | cons x xs ih =>
      intro n
      show List.foldl Nat.lor (n ||| (x ^^^ x)) (List.zipWith Nat.xor xs xs) = n
      rw [Nat.xor_self, Nat.or_zero]
      exact ih n
  unfold ctEq
  rw [h 0]
  rfl

theorem jsAdd_none_left (b : Option Int) : jsAdd none b = none := by
  cases b <;> rfl

theorem jsAdd_none_right (a : Option Int) : jsAdd a none = none := by
  cases a <;> rfl

/-- `parseInt` coerces an array argument through `ToString` before parsing,
so the array `["50"]` is numeric (`parseInt(["50"]) = 50`), and a payload
whose `current_total_price` is `["50"]` makes the aggregator write
`"1050"` over a stored `"1000"` — not `"NaN"`. -/
theorem parseIntOfJson_arr_coerces :
    parseIntOfJson (JsonV.arr [JsonV.str "50"]) = some 50 ∧
    updateSalesDonatedMetaobject (exRemoteOk "1000")
        (JsonV.arr [JsonV.str "50"]) =
      ([RemoteCall.getCall, RemoteCall.updateCall "1050"], Except.ok ()) := by
  refine ⟨rfl, rfl⟩

/-- C1 counterexample: the claim "verifyWebhook returns false rather than
throwing ... when the provided signature's length differs from the computed
code's length, verification still completes and returns false" is false on
the code: with a set secret, a computed (44-character) code, and a
1-character provided signature, `crypto.timingSafeEqual` throws a
`RangeError` instead of returning false. -/
theorem c1_counterexample :
    calculateHMAC exHmacF (some "secret") [] ≠ "" ∧
    (strBytes (calculateHMAC exHmacF (some "secret") [])).length ≠
      (strBytes "x").length ∧
    verifyWebhook exHmacF (some "secret") [] "x" = Except.error rangeErrorMsg := by
  refine ⟨by decide, by decide, rfl⟩

/-- C1 amended: with a set secret (non-empty computed code), `verifyWebhook`
completes and returns the constant-time comparison verdict — false on a
mismatch — only when the provided signature has the same byte length as the
computed code; when the byte lengths differ (including a missing/empty
signature), `timingSafeEqual` throws a `RangeError`, which propagates out of
`verifyWebhook` (the handler's `try`/`catch` then answers 500, not 401). -/
theorem c1_amended_equal_length_no_throw
    (hmacBase64 : String → Bytes → String) (secret : Option String)
    (body : Bytes) (sig : String)
    (hne : calculateHMAC hmacBase64 secret body ≠ "") :
    ((strBytes (calculateHMAC hmacBase64 secret body)).length =
        (strBytes sig).length →
      verifyWebhook hmacBase64 secret body sig =
        Except.ok (ctEq (strBytes (calculateHMAC hmacBase64 secret body))
          (strBytes sig))) ∧
    ((strBytes (calculateHMAC hmacBase64 secret body)).length ≠
        (strBytes sig).length →
      verifyWebhook hmacBase64 secret body sig = Except.error rangeErrorMsg) := by
  unfold verifyWebhook timingSafeEqual
  constructor
  · intro hlen
    simp [hne, hlen]
  · intro hlen
    simp [hne, hlen]

/-- C1 amended, witness at concrete inputs: hypotheses hold and both
branches are exercised (equal length completes with the comparison verdict,
unequal length throws). -/
theorem c1_amended_witness :
    verifyWebhook exHmacF (some "secret") [] (exHmacF "secret" []) =
      Except.ok (ctEq (strBytes (calculateHMAC exHmacF (some "secret") []))
        (strBytes (exHmacF "secret" []))) ∧
    verifyWebhook exHmacF (some "secret") [] "short" =
      Except.error rangeErrorMsg := by
  constructor
  · exact (c1_amended_equal_length_no_throw exHmacF (some "secret") []
      (exHmacF "secret" []) (by decide)).1 (by decide)
  · exact (c1_amended_equal_length_no_throw exHmacF (some "secret") []
      "short" (by decide)).2 (by decide)

/-- C2: the comparison is constant-time in the cost model that counts the
byte comparisons executed by the constant-time primitive: for two provided
signatures of equal byte length (e.g. one differing from the code in its
first byte and one in its last), `verifyWebhook` performs exactly the same
number of byte comparisons, and when the signature's length matches the
computed code's, that number is the full code length — no early return on a
partial mismatch. -/
theorem c2_constant_time_comparison
    (hmacBase64 : String → Bytes → String) (secret : Option String)
    (body : Bytes) (sig1 sig2 : String)
    (hlen : (strBytes sig1).length = (strBytes sig2).length) :
    (verifyWebhookInstr hmacBase64 secret body sig1).2 =
      (verifyWebhookInstr hmacBase64 secret body sig2).2 ∧
    (calculateHMAC hmacBase64 secret body ≠ "" →
      (strBytes (calculateHMAC hmacBase64 secret body)).length =
        (strBytes sig1).length →
      (verifyWebhookInstr hmacBase64 secret body sig1).2 =
        (strBytes sig1).length) := by
  unfold verifyWebhookInstr timingSafeEqualInstr
  constructor
  · by_cases h : calculateHMAC hmacBase64 secret body = ""
    · simp [h]
    · by_cases hl : (strBytes (calculateHMAC hmacBase64 secret body)).length =
          (strBytes sig1).length
      · simp [h, hl, hlen]
      · simp [h, hl, ← hlen]
  · intro h hl
    simp [h, hl]

/-- C2 witness: a signature differing from the 44-character computed code in
its first byte and one differing in its last byte cost exactly the same
number of byte comparisons, namely all 44. -/
theorem c2_constant_time_witness :
    (verifyWebhookInstr exHmacF (some "secret") []
        "BAAAAAAAAAAAAAAAAAAAAAAAAAAAAAAAAAAAAAAAAAA=").2 =
      (verifyWebhookInstr exHmacF (some "secret") []
        "AAAAAAAAAAAAAAAAAAAAAAAAAAAAAAAAAAAAAAAAAAB=").2 ∧
    (verifyWebhookInstr exHmacF (some "secret") []
        "BAAAAAAAAAAAAAAAAAAAAAAAAAAAAAAAAAAAAAAAAAA=").2 = 44 := by
  have h := c2_constant_time_comparison exHmacF (some "secret") []
    "BAAAAAAAAAAAAAAAAAAAAAAAAAAAAAAAAAAAAAAAAAA="
    "AAAAAAAAAAAAAAAAAAAAAAAAAAAAAAAAAAAAAAAAAAB=" (by decide)
  exact ⟨h.1, (h.2 (by decide) (by decide)).trans (by decide)⟩

/-- C3 counterexample: the claim "the metaobject update step fails (500, not
success) whenever the remote response carries userErrors" is false on the
code: with an HTTP-success update response whose `userErrors` list is
non-empty, the aggregator completes normally (the update response is never
inspected) and the handler answers 200. -/
theorem c3_counterexample :
    hasUserErrors exRemoteUserErr.updateResp.json = true ∧
    exRemoteUserErr.updateResp.ok = true ∧
    updateSalesDonatedMetaobject exRemoteUserErr (JsonV.str "25") =
      ([RemoteCall.getCall, RemoteCall.updateCall "1025"], Except.ok ()) ∧
    handler exHmacF exJsonParse25 ⟨some "secret"⟩ exRemoteUserErr
        ⟨"POST", some (exHmacF "secret" []), some "orders/updated",
         some "shop.myshopify.com", []⟩ =
      (200, [RemoteCall.getCall, RemoteCall.updateCall "1025"]) := by
  refine ⟨rfl, rfl, rfl, rfl⟩

/-- C3 amended: the update step's outcome ignores the application-level
content of the update response entirely — once the read call has succeeded
and the field path resolved, the aggregator succeeds exactly when the
update call's HTTP status is a success (`response.ok`), regardless of any
`userErrors` list in the response body; only transport-level failures are
surfaced. -/
theorem c3_amended_only_http_failure (remote : RemoteModel) (price : JsonV)
    (v : JsonV) (hok : remote.getResp.ok = true)
    (hpath : fieldValuePath remote.getResp.json = Except.ok v) :
    (updateSalesDonatedMetaobject remote price).2 =
      (if remote.updateResp.ok then Except.ok ()
       else Except.error (httpErrorMsg remote.updateResp.status)) := by
  unfold updateSalesDonatedMetaobject shopifyGraphQL
  rw [hok]
  simp only [if_true, hpath]
  by_cases h : remote.updateResp.ok <;> simp [h]

/-- C3 amended, witness: at the concrete remote whose update response is
HTTP-success with non-empty `userErrors`, the aggregator reports success. -/
theorem c3_amended_witness :
    (updateSalesDonatedMetaobject exRemoteUserErr (JsonV.str "25")).2 =
      Except.ok () := by
  have h := c3_amended_only_http_failure exRemoteUserErr (JsonV.str "25")
    (JsonV.str "1000") rfl rfl
  simpa using h

/-- C4 counterexample: the claim "the read step fails ... when the field's
stored value is non-numeric" is false on the code: with the stored value
`"abc"` (non-numeric: `parseInt` gives `NaN`), the aggregator does not
fail — it proceeds and issues the write with the string `"NaN"`, completing
normally. -/
theorem c4_counterexample :
    parseIntJS "abc" = none ∧
    updateSalesDonatedMetaobject (exRemoteOk "abc") (JsonV.str "25") =
      ([RemoteCall.getCall, RemoteCall.updateCall "NaN"], Except.ok ()) := by
  refine ⟨by decide, rfl⟩

/-- C4 amended: with a transport-successful read, the aggregator fails
(propagating the thrown `TypeError`) when the remote object or its field is
absent — the property chain `data.metaobject.fields[0].value` errors — but a
present field whose stored value is non-numeric does NOT fail: the parse
yields `NaN` and the aggregator proceeds to issue the write with the string
`"NaN"`. -/
theorem c4_amended_absent_fails_nonnumeric_proceeds
    (remote : RemoteModel) (price : JsonV)
    (hok : remote.getResp.ok = true) :
    (∀ e, fieldValuePath remote.getResp.json = Except.error e →
      updateSalesDonatedMetaobject remote price =
        ([RemoteCall.getCall], Except.error e)) ∧
    (∀ s, fieldValuePath remote.getResp.json = Except.ok (JsonV.str s) →
      parseIntJS s = none →
      updateSalesDonatedMetaobject remote price =
        ([RemoteCall.getCall, RemoteCall.updateCall "NaN"],
         if remote.updateResp.ok then Except.ok ()
         else Except.error (httpErrorMsg remote.updateResp.status))) := by
  constructor
  · intro e he
    unfold updateSalesDonatedMetaobject shopifyGraphQL
    rw [hok]
    simp [he]
  · intro s hs hnum
    unfold updateSalesDonatedMetaobject shopifyGraphQL
    rw [hok]
    simp only [if_true, hs]
    have hadd : jsAdd (parseIntOfJson (JsonV.str s)) (parseIntOfJson price) = none := by
      simp [parseIntOfJson, jsToString, hnum, jsAdd_none_left]
    by_cases h : remote.updateResp.ok <;>
      simp [h, hadd, jsFloor, numToString]

/-- C4 amended, witness: a `null` metaobject makes the aggregator fail with
the propagated `TypeError` after only the read call. -/
theorem c4_amended_witness :
    updateSalesDonatedMetaobject exRemoteNullMeta (JsonV.str "25") =
      ([RemoteCall.getCall],
       Except.error "TypeError: Cannot read properties of null") := by
  exact (c4_amended_absent_fails_nonnumeric_proceeds exRemoteNullMeta
    (JsonV.str "25") rfl).1 _ rfl

/-- C5: when the configured shared secret is absent or empty, verification
fails closed: `verifyWebhook` returns false, and the constant-time
primitive is never entered (zero byte comparisons executed), so no code
computed with an empty key is ever compared. -/
theorem c5_fail_closed (hmacBase64 : String → Bytes → String)
    (body : Bytes) (sig : String) (secret : Option String)
    (h : secret = none ∨ secret = some "") :
    verifyWebhook hmacBase64 secret body sig = Except.ok false ∧
    (verifyWebhookInstr hmacBase64 secret body sig).2 = 0 := by
  rcases h with h | h <;> subst h <;>
    simp [verifyWebhook, verifyWebhookInstr, calculateHMAC]

/-- C5 witness: with the empty secret and an arbitrary signature,
verification returns false with zero comparisons. -/
theorem c5_fail_closed_witness :
    verifyWebhook exHmacF (some "") [] "anything" = Except.ok false ∧
    (verifyWebhookInstr exHmacF (some "") [] "anything").2 = 0 := by
  exact c5_fail_closed exHmacF [] "anything" (some "") (Or.inr rfl)

/-- C6: for every payload and non-empty secret, verifying the payload
against the genuine code — the digest text `calculateHMAC` itself computes
(for any implementation of the external HMAC-SHA256/base64 primitive, whose
digest text is never empty) — returns true. -/
theorem c6_genuine_signature_verifies (hmacBase64 : String → Bytes → String)
    (body : Bytes) (s : String) (hs : s ≠ "")
    (hd : hmacBase64 s body ≠ "") :
    verifyWebhook hmacBase64 (some s) body
      (calculateHMAC hmacBase64 (some s) body) = Except.ok true := by
  unfold verifyWebhook timingSafeEqual calculateHMAC
  simp [hs, hd, ctEq_self]

/-- C6 witness: at a concrete non-empty secret and payload, the genuine
code verifies. -/
theorem c6_genuine_signature_witness :
    verifyWebhook exHmacF (some "secret") [1, 2, 3]
      (calculateHMAC exHmacF (some "secret") [1, 2, 3]) = Except.ok true := by
  exact c6_genuine_signature_verifies exHmacF [1, 2, 3] "secret"
    (by decide) (by decide)

/-- C7: the new counter value is `Math.floor(currentValue + parseInt(delta))`;
since `parseInt` already truncates the delta to an integer (stopping at the
first non-digit) and the sum of integers is integral, the result is
`currentValue + parseInt(delta)` — any fractional component of the delta is
truncated. -/
theorem c7_compute_new_value (c : Int) (delta : String) (d : Int)
    (h : parseIntJS delta = some d) :
    computeNewValue (some c) delta = some (c + d) := by
  simp [computeNewValue, jsFloor, jsAdd, h]

/-- C7 witness: `computeNewValue(100, "50") == 150` and
`computeNewValue(100, "50.9") == 150` (fractional truncation). -/
theorem c7_compute_new_value_witness :
    parseIntJS "50" = some 50 ∧ computeNewValue (some 100) "50" = some 150 ∧
    parseIntJS "50.9" = some 50 ∧
    computeNewValue (some 100) "50.9" = some 150 := by
  refine ⟨by decide, c7_compute_new_value 100 "50" 50 (by decide),
    by decide, c7_compute_new_value 100 "50.9" 50 (by decide)⟩

/-- C8: a POST request missing any of the three required headers (signature
token, event topic, shop domain) is answered with status 400 and no remote
call is issued, for every environment, remote service, and body. -/
theorem c8_missing_headers_400_no_calls
    (hmacBase64 : String → Bytes → String)
    (jsonParse : Bytes → Except String JsonV)
    (env : Env) (remote : RemoteModel) (req : Request)
    (hpost : req.method = "POST")
    (h : req.hmacHeader = none ∨ req.topicHeader = none ∨
      req.shopHeader = none) :
    handler hmacBase64 jsonParse env remote req = (400, []) := by
  unfold handler
  rcases h with h | h | h <;> simp [hpost, headerFalsy, h]

/-- C8 witness: a concrete POST request without the signature header gets
400 and no remote calls. -/
theorem c8_missing_headers_witness :
    handler exHmacF exJsonParse25 ⟨some "secret"⟩ (exRemoteOk "1000")
      ⟨"POST", none, some "orders/updated", some "shop.myshopify.com", []⟩ =
      (400, []) := by
  exact c8_missing_headers_400_no_calls exHmacF exJsonParse25 ⟨some "secret"⟩
    (exRemoteOk "1000") _ rfl (Or.inl rfl)

/-- C9 (implicit): beyond their presence, the values of the event-topic and
shop-domain headers never influence the outcome — two requests identical
except for their non-empty topic and shop header strings produce the same
status and the same remote calls; no topic (such as "orders/updated") is
treated specially. -/
theorem c9_topic_shop_values_irrelevant
    (hmacBase64 : String → Bytes → String)
    (jsonParse : Bytes → Except String JsonV)
    (env : Env) (remote : RemoteModel) (method : String)
    (hm : Option String) (body : Bytes) (t1 t2 s1 s2 : String)
    (ht1 : t1 ≠ "") (ht2 : t2 ≠ "") (hs1 : s1 ≠ "") (hs2 : s2 ≠ "") :
    handler hmacBase64 jsonParse env remote
      ⟨method, hm, some t1, some s1, body⟩ =
    handler hmacBase64 jsonParse env remote
      ⟨method, hm, some t2, some s2, body⟩ := by
  unfold handler
  simp [headerFalsy, ht1, ht2, hs1, hs2]

/-- C9 witness: the topic "orders/updated" and a different topic
"orders/create" (with different shop domains) give identical outcomes on an
otherwise identical request. -/
theorem c9_topic_shop_values_witness :
    handler exHmacF exJsonParse25 ⟨some "secret"⟩ (exRemoteOk "1000")
      ⟨"POST", some (exHmacF "secret" []), some "orders/updated",
       some "shop-a.myshopify.com", []⟩ =
    handler exHmacF exJsonParse25 ⟨some "secret"⟩ (exRemoteOk "1000")
      ⟨"POST", some (exHmacF "secret" []), some "orders/create",
       some "shop-b.myshopify.com", []⟩ := by
  exact c9_topic_shop_values_irrelevant exHmacF exJsonParse25 ⟨some "secret"⟩
    (exRemoteOk "1000") "POST" (some (exHmacF "secret" [])) []
    "orders/updated" "orders/create" "shop-a.myshopify.com"
    "shop-b.myshopify.com" (by decide) (by decide) (by decide) (by decide)

/-- C10 (implicit): a verified POST request whose parsed body lacks a
numeric `current_total_price` (the field is absent or non-numeric, so
`parseInt` gives `NaN`) does not fail: with transport-successful remote
calls and a resolvable stored field, the aggregator issues the write
mutation with the string `"NaN"` and the handler answers 200. -/
theorem c10_nan_written_with_200
    (hmacBase64 : String → Bytes → String)
    (jsonParse : Bytes → Except String JsonV)
    (env : Env) (remote : RemoteModel) (req : Request)
    (wb v fv : JsonV)
    (hpost : req.method = "POST")
    (hh : headerFalsy req.hmacHeader = false)
    (ht : headerFalsy req.topicHeader = false)
    (hs : headerFalsy req.shopHeader = false)
    (hver : verifyWebhook hmacBase64 env.webhookSecret req.rawBody
      (req.hmacHeader.getD "") = Except.ok true)
    (hparse : jsonParse req.rawBody = Except.ok wb)
    (hprop : wb.getProp "current_total_price" = Except.ok v)
    (hnum : parseIntOfJson v = none)
    (hgok : remote.getResp.ok = true)
    (hpath : fieldValuePath remote.getResp.json = Except.ok fv)
    (huok : remote.updateResp.ok = true) :
    handler hmacBase64 jsonParse env remote req =
      (200, [RemoteCall.getCall, RemoteCall.updateCall "NaN"]) := by
  have hupdate : updateSalesDonatedMetaobject remote v =
      ([RemoteCall.getCall, RemoteCall.updateCall "NaN"], Except.ok ()) := by
    unfold updateSalesDonatedMetaobject shopifyGraphQL
    rw [hgok]
    simp only [if_true, hpath]
    rw [huok]
    simp [hnum, jsAdd_none_right, jsFloor, numToString]
  unfold handler
  simp [hpost, hh, ht, hs, hver, hparse, hprop, hupdate]

/-- C10 witness: a concrete verified request whose body parses to `{}` (no
`current_total_price`) leads to a write of `"NaN"` and status 200. -/
theorem c10_nan_written_witness :
    handler exHmacF exJsonParseEmpty ⟨some "secret"⟩ (exRemoteOk "1000")
      ⟨"POST", some (exHmacF "secret" []), some "orders/updated",
       some "shop.myshopify.com", []⟩ =
      (200, [RemoteCall.getCall, RemoteCall.updateCall "NaN"]) := by
  exact c10_nan_written_with_200 exHmacF exJsonParseEmpty ⟨some "secret"⟩
    (exRemoteOk "1000")
    ⟨"POST", some (exHmacF "secret" []), some "orders/updated",
     some "shop.myshopify.com", []⟩
    (JsonV.obj []) JsonV.undefinedV (JsonV.str "1000")
    rfl rfl rfl rfl rfl rfl rfl rfl rfl rfl rfl
